import Mathlib

/-
Verification of the NaseerAI mobile text-generation core against its
natural-language specification.  The definitions below are a shallow
embedding of the C++ sources under
`android/app/src/main/cpp/src/` (text_generator.cpp, model_loader.cpp,
tokenizer.cpp, model_interface.cpp).  C++ `std::string` is modelled by
`String` / `List Char`, `int` by `Int` (with the `std::stoi` range check
made explicit), `float` configuration values by `ℚ` (only order
comparisons occur, so the embedding is exact on non-NaN values), and the
opaque llama.cpp backend by an explicit `Backend` record of abstract
behaviours.
-/

set_option maxRecDepth 100000
set_option maxHeartbeats 4000000

namespace NaseerAI



/-- ASCII lower-casing: the behaviour of C `tolower` (C locale) used via
`std::transform(..., ::tolower)` in the sources. -/
def asciiToLower (c : Char) : Char :=
  if 'A' ≤ c ∧ c ≤ 'Z' then Char.ofNat (c.toNat + 32) else c

/-- Lower-case a whole string, as `std::transform` over the characters. -/
def lowerString (s : String) : String :=
  String.mk (s.data.map asciiToLower)

/-- Whether `needle` is an initial segment of `hay` (character lists). -/
def isPrefixChars : List Char → List Char → Bool
  | [], _ => true
  | _ :: _, [] => false
  | a :: as, b :: bs => a == b && isPrefixChars as bs

/-- Whether `needle` occurs as a contiguous substring of the second
argument; this is `std::string::find(needle) != npos`. -/
def containsChars (needle : List Char) : List Char → Bool
  | [] => isPrefixChars needle []
  | c :: rest => isPrefixChars needle (c :: rest) || containsChars needle rest

/-- `s.find(sub) != std::string::npos` on `std::string`. -/
def strContains (s sub : String) : Bool :=
  containsChars sub.data s.data

/-- The whitespace class of C `isspace` in the C locale. -/
def isCppSpace (c : Char) : Bool :=
  c == ' ' || c == '\t' || c == '\n' || c == '\x0b' || c == '\x0c' || c == '\r'

/-- Numeric value of a maximal run of decimal digits. -/
def digitsToNat (ds : List Char) : Nat :=
  ds.foldl (fun a c => a * 10 + (c.toNat - 48)) 0

/-- `std::stoi` on a character list: skip whitespace, optional sign, then a
non-empty maximal digit prefix (trailing junk ignored); `none` when no
digit is found (`invalid_argument`) or the value leaves the range of a
32-bit `int` (`out_of_range`).  Both exceptions are caught by the caller. -/
def stoi? (s : List Char) : Option Int :=
  let t := s.dropWhile isCppSpace
  let signed : Int × List Char :=
    match t with
    | '+' :: r => (1, r)
    | '-' :: r => (-1, r)
    | r => (1, r)
  let ds := signed.2.takeWhile (fun c => c.isDigit)
  if ds.isEmpty then none
  else
    let v : Int := signed.1 * (digitsToNat ds : Int)
    if v < -2147483648 ∨ 2147483647 < v then none else some v

/-- `std::to_string` on `int` (decimal, `-` sign for negatives). -/
def intToString (i : Int) : String := toString i

/-- `clean_expr.erase(std::remove(... ' ') ...)`: drop space characters. -/
def removeSpaces (s : String) : List Char :=
  s.data.filter (fun c => c ≠ ' ')

/-- `TextGenerator::handle_basic_math`: strip spaces; if a `+` occurs,
parse both sides with `stoi` and return the sum; otherwise if a `-`
occurs at a position `> 0`, return the difference; any parse failure or
no operator yields `""`.  (The `int` sum itself is modelled as exact
integer arithmetic.) -/
def handle_basic_math (expression : String) : String :=
  let clean := removeSpaces expression
  match clean.findIdx? (fun c => c == '+') with
  | some plusPos =>
    (match stoi? (clean.take plusPos), stoi? (clean.drop (plusPos + 1)) with
     | some a, some b => intToString (a + b)
     | _, _ => "")
  | none =>
    match clean.findIdx? (fun c => c == '-') with
    | some minusPos =>
      if 0 < minusPos then
        (match stoi? (clean.take minusPos), stoi? (clean.drop (minusPos + 1)) with
         | some a, some b => intToString (a - b)
         | _, _ => "")
      else ""
    | none => ""

/-- Canned response of the emergency/danger/help rule. -/
def emergencyResponse : String :=
  "I understand this may be an emergency situation. For immediate safety:\n\n1. Move to the safest available location\n2. Stay low if there's debris or smoke\n3. Check for injuries and provide basic first aid\n4. Signal for help if possible\n5. Conserve water, food, and battery power\n\nWhat specific emergency assistance do you need?"

/-- Canned response of the water-purification rule. -/
def waterResponse : String :=
  "Water purification methods using available materials:\n\n**Immediate options:**\n• Boiling: Use any heat source for 1-3 minutes\n• Solar disinfection: Clear bottles in direct sunlight for 6+ hours\n• Sand filtration: Layer fine sand, gravel, cloth in container\n\n**Materials needed:**\n• Cloth or fabric for initial filtering\n• Sand and gravel (if available)\n• Clear containers or bottles\n• Heat source (wood, solar cooker)\n\nThese methods remove most harmful bacteria and particles. Always use the clearest water source available as starting point."

/-- Canned response of the medical/first-aid rule. -/
def medicalResponse : String :=
  "Basic first aid using available materials:\n\n**For wounds:**\n• Clean cloth or fabric for bandages\n• Clean water for washing\n• Apply direct pressure to stop bleeding\n• Elevate injured area if possible\n\n**For burns:**\n• Cool running water or clean wet cloth\n• Avoid ice or very cold water\n• Cover with clean, dry cloth\n\n**Important:** These are emergency measures. Seek professional medical help when possible."

/-- Canned response of the shelter/protection rule. -/
def shelterResponse : String :=
  "Creating protective shelter with available materials:\n\n**Basic structure:**\n• Use walls, debris, or natural features\n• Create windbreaks with fabric, tarps, or boards\n• Insulate from ground with blankets, cardboard, or clothing\n\n**For weather protection:**\n• Slope roof materials to shed water\n• Block wind from dominant direction\n• Create small, enclosed space to retain body heat\n\n**Safety priorities:**\n• Avoid unstable structures\n• Ensure ventilation\n• Have clear exit routes"

/-- Canned response of the communication/signal/contact rule. -/
def communicationResponse : String :=
  "Communication methods when networks are down:\n\n**Visual signals:**\n• Mirrors or reflective surfaces for sunlight signals\n• Bright cloth or clothing as markers\n• Smoke signals (safely controlled fires)\n\n**Audio signals:**\n• Whistles, horns, or loud objects\n• Rhythmic patterns (3 blasts = distress)\n• Shouting at regular intervals\n\n**Written messages:**\n• Leave notes in visible locations\n• Use improvised writing materials\n• Include date, time, direction of travel"

/-- Canned response of the hello/hi rule. -/
def helloResponse : String :=
  "Hello! I'm NaseerAI, running locally on your device. I'm designed to provide assistance even without internet connectivity. How can I help you today?"

/-- Canned response of the how-are-you rule. -/
def howAreYouResponse : String :=
  "I'm functioning well and ready to assist you. As a local AI model, I can help with information, problem-solving, and guidance even when you're offline. What do you need help with?"

/-- Canned response of the what + ai rule. -/
def whatAiResponse : String :=
  "I'm an AI assistant running locally on your device using a lightweight language model. I can help with explanations, problem-solving, emergency guidance, and general questions without requiring an internet connection."

/-- Canned response of the programming/code rule. -/
def programmingResponse : String :=
  "I can help with programming concepts and coding questions. What specific programming language or problem are you working with? I can explain concepts, help debug issues, or suggest approaches."

/-- The unconditional default response at the end of the rule chain. -/
def defaultResponse : String :=
  "I'm here to help with a wide range of topics including emergency guidance, technical questions, explanations, and problem-solving. I work completely offline, so you can rely on me even without internet access. What specific information or assistance do you need?"

/-- `TextGenerator::generate_pattern_response`: lower-case the prompt, try
the keyword rules in source order (each `if` in the C++ returns), then
the arithmetic handler, then the default response. -/
def generate_pattern_response (prompt : String) : String :=
  if strContains (lowerString prompt) "emergency" || strContains (lowerString prompt) "danger" ||
     strContains (lowerString prompt) "help" then
    emergencyResponse
  else if strContains (lowerString prompt) "water" &&
          (strContains (lowerString prompt) "clean" || strContains (lowerString prompt) "purify") then
    waterResponse
  else if strContains (lowerString prompt) "medical" || strContains (lowerString prompt) "injury" ||
          strContains (lowerString prompt) "first aid" then
    medicalResponse
  else if strContains (lowerString prompt) "shelter" || strContains (lowerString prompt) "protection" then
    shelterResponse
  else if strContains (lowerString prompt) "communication" || strContains (lowerString prompt) "signal" ||
          strContains (lowerString prompt) "contact" then
    communicationResponse
  else if strContains (lowerString prompt) "hello" || strContains (lowerString prompt) "hi" then
    helloResponse
  else if strContains (lowerString prompt) "how are you" then
    howAreYouResponse
  else if strContains (lowerString prompt) "what" && strContains (lowerString prompt) "ai" then
    whatAiResponse
  else if strContains (lowerString prompt) "programming" || strContains (lowerString prompt) "code" then
    programmingResponse
  else if strContains (lowerString prompt) "+" || strContains (lowerString prompt) "-" ||
          strContains (lowerString prompt) "calculate" then
    (if handle_basic_math prompt == "" then defaultResponse else handle_basic_math prompt)
  else
    defaultResponse

/-- Disjunction of the nine keyword-rule conditions that precede the
arithmetic handler in `generate_pattern_response` (same order). -/
def matchesKeywordRule (prompt : String) : Bool :=
  (strContains (lowerString prompt) "emergency" || strContains (lowerString prompt) "danger" ||
   strContains (lowerString prompt) "help") ||
  (strContains (lowerString prompt) "water" &&
   (strContains (lowerString prompt) "clean" || strContains (lowerString prompt) "purify")) ||
  (strContains (lowerString prompt) "medical" || strContains (lowerString prompt) "injury" ||
   strContains (lowerString prompt) "first aid") ||
  (strContains (lowerString prompt) "shelter" || strContains (lowerString prompt) "protection") ||
  (strContains (lowerString prompt) "communication" || strContains (lowerString prompt) "signal" ||
   strContains (lowerString prompt) "contact") ||
  (strContains (lowerString prompt) "hello" || strContains (lowerString prompt) "hi") ||
  (strContains (lowerString prompt) "how are you") ||
  (strContains (lowerString prompt) "what" && strContains (lowerString prompt) "ai") ||
  (strContains (lowerString prompt) "programming" || strContains (lowerString prompt) "code")

/-! ### ModelLoader (model_loader.cpp) -/

/-- Index of the last occurrence of `c`, as `std::string::find_last_of`. -/
def lastIdxOf (c : Char) : List Char → Option Nat
  | [] => none
  | x :: xs =>
    match lastIdxOf c xs with
    | some i => some (i + 1)
    | none => if x == c then some 0 else none

/-- `ModelLoader::get_file_extension`: the substring from the last `.` to
the end (the dot included), lower-cased; the empty string when the path
has no dot. -/
def get_file_extension (file_path : String) : String :=
  match lastIdxOf '.' file_path.data with
  | some i => String.mk ((file_path.data.drop i).map asciiToLower)
  | none => ""

/-- The extension set recognised by `ModelLoader::is_supported_format`. -/
def supportedExtensions : List String :=
  [".gguf", ".safetensors", ".bin", ".pt", ".pth"]

/-- `ModelLoader::is_supported_format`. -/
def is_supported_format (file_path : String) : Bool :=
  get_file_extension file_path == ".gguf" ||
  get_file_extension file_path == ".safetensors" ||
  get_file_extension file_path == ".bin" ||
  get_file_extension file_path == ".pt" ||
  get_file_extension file_path == ".pth"

/-! ### Tokenizer (tokenizer.cpp) -/

/-- The mutable state of `Tokenizer`: the vocabulary vector and the
string-to-id `unordered_map` (modelled as an association list with
unique keys; `operator[]` assignment overwrites). -/
structure TokenizerState where
  m_vocabulary : List String
  m_token_to_id : List (String × Nat)

/-- `m_token_to_id[k] = v`: insert or overwrite. -/
def mapInsert (m : List (String × Nat)) (k : String) (v : Nat) :
    List (String × Nat) :=
  (k, v) :: m.filter (fun p => p.1 ≠ k)

/-- `m_token_to_id.find(k)`. -/
def lookupId (m : List (String × Nat)) (k : String) : Option Nat :=
  (m.find? (fun p => p.1 == k)).map (fun p => p.2)

/-- The five control tokens of `create_basic_vocabulary`. -/
def specialTokens : List String := ["<PAD>", "<UNK>", "<BOS>", "<EOS>", "<MASK>"]

/-- The curated common-word list of `create_basic_vocabulary`. -/
def commonWords : List String :=
  ["the", "a", "an", "and", "or", "but", "in", "on", "at", "to", "for", "of", "with", "by",
   "i", "you", "he", "she", "it", "we", "they", "me", "him", "her", "us", "them",
   "is", "are", "was", "were", "be", "been", "being", "have", "has", "had", "do", "does", "did",
   "will", "would", "could", "should", "may", "might", "can", "must",
   "what", "where", "when", "why", "how", "who", "which", "that", "this", "these", "those",
   "yes", "no", "not", "never", "always", "sometimes", "often", "usually", "here", "there",
   "good", "bad", "big", "small", "new", "old", "first", "last", "long", "short", "high", "low",
   "water", "food", "help", "emergency", "safety", "medical", "shelter", "communication",
   "hello", "hi", "thank", "please", "sorry", "welcome", "goodbye"]

/-- The 26 lowercase letters added by the `'a'..'z'` loop. -/
def alphabetTokens : List String :=
  (List.range 26).map (fun i => String.mk [Char.ofNat (97 + i)])

/-- The 10 digits added by the `'0'..'9'` loop. -/
def digitTokens : List String :=
  (List.range 10).map (fun i => String.mk [Char.ofNat (48 + i)])

/-- All tokens inserted by `create_basic_vocabulary`, in insertion order. -/
def basicTokens : List String :=
  specialTokens ++ commonWords ++ alphabetTokens ++ digitTokens

/-- The insertion loop shared by all four blocks of
`create_basic_vocabulary`: push each token and map it to the next id. -/
def buildGo : List String → List String → List (String × Nat) →
    List String × List (String × Nat)
  | [], v, m => (v, m)
  | t :: rest, v, m => buildGo rest (v ++ [t]) (mapInsert m t v.length)

/-- `Tokenizer::create_basic_vocabulary` as the state it constructs. -/
def create_basic_vocabulary : TokenizerState :=
  { m_vocabulary := (buildGo basicTokens [] []).1,
    m_token_to_id := (buildGo basicTokens [] []).2 }

/-- The read loop of `load_vocabulary`: `while (getline && id < 50000)`,
pushing only non-empty lines. -/
def loadGo : List String → List String → List (String × Nat) →
    List String × List (String × Nat)
  | [], v, m => (v, m)
  | line :: rest, v, m =>
    if v.length < 50000 then
      if line ≠ "" then loadGo rest (v ++ [line]) (mapInsert m line v.length)
      else loadGo rest v m
    else (v, m)

/-- `Tokenizer::load_vocabulary`; `none` models a file that fails to open
(then the basic vocabulary is built and `true` returned), `some lines`
the lines of an opened file. -/
def load_vocabulary (file : Option (List String)) : Bool × TokenizerState :=
  match file with
  | none => (true, create_basic_vocabulary)
  | some lines =>
    let r := loadGo lines [] []
    (!r.1.isEmpty, { m_vocabulary := r.1, m_token_to_id := r.2 })

/-- The punctuation class of C `ispunct` in the C locale. -/
def isCppPunct (c : Char) : Bool :=
  (33 ≤ c.toNat && c.toNat ≤ 47) || (58 ≤ c.toNat && c.toNat ≤ 64) ||
  (91 ≤ c.toNat && c.toNat ≤ 96) || (123 ≤ c.toNat && c.toNat ≤ 126)

/-- Per-token normalisation in `encode`: lower-case, then strip
punctuation. -/
def normalizeToken (w : String) : String :=
  String.mk ((w.data.map asciiToLower).filter (fun c => !isCppPunct c))

/-- `std::istringstream >>` extraction: maximal non-whitespace runs. -/
def splitWs (text : String) : List String :=
  (text.split (fun c => isCppSpace c)).filter (fun w => w ≠ "")

/-- `Tokenizer::encode`: rebuild the basic vocabulary when the current
one is empty, then map each whitespace token to its id, or to the
`<UNK>` id 1 when absent.  Returns the tokens and the state after the
call. -/
def encode (st : TokenizerState) (text : String) : List Int × TokenizerState :=
  let st1 := if st.m_vocabulary.isEmpty then create_basic_vocabulary else st
  ((splitWs text).map (fun w =>
      match lookupId st1.m_token_to_id (normalizeToken w) with
      | some i => (i : Int)
      | none => 1),
   st1)

/-- `Tokenizer::decode`: for each index, if the id is in range append the
vocabulary string, and append a single `" "` whenever the index is not
the last one. -/
def decode (vocab : List String) : List Int → String
  | [] => ""
  | [t] => if 0 ≤ t ∧ t < (vocab.length : Int) then vocab.getD t.toNat "" else ""
  | t :: u :: rest =>
    (if 0 ≤ t ∧ t < (vocab.length : Int) then vocab.getD t.toNat "" ++ " " else "") ++
      decode vocab (u :: rest)

/-- Modelled from the spec: "joins vocabulary strings for valid ids with
single spaces" — the join the claim describes, for comparison with
`decode`. -/
def joinSpace : List String → String
  | [] => ""
  | [s] => s
  | s :: t :: rest => s ++ " " ++ joinSpace (t :: rest)

/-- The vocabulary strings of the in-range ids, in order. -/
def validStrings (vocab : List String) (tokens : List Int) : List String :=
  (tokens.filter (fun t => decide (0 ≤ t ∧ t < (vocab.length : Int)))).map
    (fun t => vocab.getD t.toNat "")

/-- Whether `decode` leaves a trailing separator: the last id is out of
range while some valid id occurred before it. -/
def trailingFlag (vocab : List String) (tokens : List Int) : Bool :=
  match tokens.getLast? with
  | some t => !(decide (0 ≤ t ∧ t < (vocab.length : Int))) &&
              !(validStrings vocab tokens).isEmpty
  | none => false

def TokInv (st : TokenizerState) : Prop :=
  st.m_vocabulary.length ≤ 50000 ∧
  "" ∉ st.m_vocabulary ∧
  ∀ p ∈ st.m_token_to_id, st.m_vocabulary[p.2]? = some p.1

/-! ### TextGenerator engine state (text_generator.cpp, model_interface.cpp) -/

/-- The state of a `TextGenerator`: the private members of the class and
of its owned `ModelData` (llama.cpp pointers are modelled by presence
flags, since the backend itself is opaque). -/
structure TGState where
  m_loaded : Bool
  m_temperature : ℚ
  m_top_k : Int
  m_top_p : ℚ
  vocab_size : Int
  hidden_size : Int
  num_layers : Int
  use_pattern_fallback : Bool
  has_llama_model : Bool
  has_llama_context : Bool
  model_path : String

/-- The freshly constructed `TextGenerator` (member initialisers of the
class and of `ModelData`). -/
def initialTG : TGState where
  m_loaded := false
  m_temperature := 0.7
  m_top_k := 40
  m_top_p := 0.95
  vocab_size := 0
  hidden_size := 0
  num_layers := 0
  use_pattern_fallback := true
  has_llama_model := false
  has_llama_context := false
  model_path := ""

/-- Outcome of `ModelLoader::load_from_file` as observed by
`load_model`: success with the loaded metadata, a `false` return, or a
thrown exception. -/
inductive LoadOutcome where
  | success (vocab_size hidden_size num_layers : Int)
      (fallback hasModel hasCtx : Bool) (path : String)
  | failure
  | thrown

/-- `TextGenerator::load_model`: on loader success copy the metadata and
transfer the backend resources; on loader failure or exception set
`use_pattern_fallback`; in every case set `m_loaded` and return true. -/
def load_model (st : TGState) (o : LoadOutcome) : Bool × TGState :=
  match o with
  | .success vs hs nl fb hm hc path =>
    (true, { st with
        vocab_size := vs, hidden_size := hs, num_layers := nl,
        use_pattern_fallback := fb, has_llama_model := hm,
        has_llama_context := hc, model_path := path, m_loaded := true })
  | .failure =>
    (true, { st with use_pattern_fallback := true, m_loaded := true })
  | .thrown =>
    (true, { st with use_pattern_fallback := true, m_loaded := true })

/-- `init_model` of the C ABI on a non-null path and with no exception
thrown during setup: construct a fresh generator, run `load_model`, and
return 0 when it reports success and -1 otherwise. -/
def init_model (o : LoadOutcome) : Int × TGState :=
  let r := load_model initialTG o
  (if r.1 then 0 else -1, r.2)

/-- `std::min`: `b < a ? b : a`. -/
def cppMin {α : Type} [LinearOrder α] (a b : α) : α := if b < a then b else a

/-- `std::max`: `a < b ? b : a`. -/
def cppMax {α : Type} [LinearOrder α] (a b : α) : α := if a < b then b else a

/-- `TextGenerator::set_temperature`. -/
def set_temperature (st : TGState) (temperature : ℚ) : TGState :=
  { st with m_temperature := cppMax 0.1 (cppMin 2.0 temperature) }

/-- `TextGenerator::set_top_k`. -/
def set_top_k (st : TGState) (top_k : Int) : TGState :=
  { st with m_top_k := cppMax 1 (cppMin 100 top_k) }

/-- `TextGenerator::set_top_p`. -/
def set_top_p (st : TGState) (top_p : ℚ) : TGState :=
  { st with m_top_p := cppMax 0.1 (cppMin 1.0 top_p) }

/-- The opaque llama.cpp backend behaviours that `generate_with_llama`
consumes: context-creation success, the tokenizer result for a given
buffer size, the token list on success, the end-of-sequence token, the
per-batch decode failure flag, the logits after a given token history,
and token-to-text conversion (empty when `llama_token_to_piece` reports
a non-positive length). -/
structure Backend where
  ctxOk : Bool
  tokenizeRes : String → Nat → Int
  tokensOf : String → List Int
  eos : Int
  decodeFail : List Int → Bool
  logits : List Int → List ℚ
  piece : Int → String

/-- The scan of `TextGenerator::sample_token`: running maximum logit with
its index, updated only on strictly greater values. -/
def argmaxGo : List ℚ → ℚ → Int → Int → Int
  | [], _, best, _ => best
  | x :: xs, m, best, i => if m < x then argmaxGo xs x i (i + 1) else argmaxGo xs m best (i + 1)

/-- `TextGenerator::sample_token`: greedy arg-max over the logit vector,
starting from index 0; ties keep the earlier index.  The sampling
configuration fields are not consulted. -/
def sample_token (logits : List ℚ) : Int :=
  match logits with
  | [] => 0
  | l0 :: rest => argmaxGo rest l0 0 1

/-- The generation loop of `generate_with_llama`: up to `max_tokens`
iterations, stop at end-of-sequence, append the token text, stop (keeping
the text generated so far) when decoding the new token fails. -/
def genLoop (be : Backend) : List Int → String → Nat → String
  | _, acc, 0 => acc
  | hist, acc, n + 1 =>
    let t := sample_token (be.logits hist)
    if t == be.eos then acc
    else
      let acc2 := acc ++ be.piece t
      if be.decodeFail (hist ++ [t]) then acc2
      else genLoop be (hist ++ [t]) acc2 n

/-- `TextGenerator::generate_with_llama`: lazy context creation, prompt
tokenization with one retry at the backend-reported size, prompt
processing, then the generation loop. -/
def generate_with_llama (be : Backend) (st : TGState) (prompt : String)
    (max_tokens : Int) : String :=
  if !st.has_llama_model then "Error: llama model not loaded"
  else if !st.has_llama_context && !be.ctxOk then "Error: Failed to create llama context"
  else
    let n1 := be.tokenizeRes prompt (prompt.length + 1)
    if n1 < 0 then
      if be.tokenizeRes prompt n1.natAbs < 0 then "Error: Failed to tokenize prompt"
      else
        if be.decodeFail (be.tokensOf prompt) then "Error: Failed to process prompt"
        else genLoop be (be.tokensOf prompt) "" max_tokens.toNat
    else
      if be.decodeFail (be.tokensOf prompt) then "Error: Failed to process prompt"
      else genLoop be (be.tokensOf prompt) "" max_tokens.toNat

/-- `TextGenerator::generate`: the "model not loaded" sentinel, the
pattern-fallback path, or real inference. -/
def generate (be : Backend) (st : TGState) (prompt : String)
    (max_tokens : Int) : String :=
  if !st.m_loaded then "Error: Model not loaded"
  else if st.use_pattern_fallback || !st.has_llama_model then
    generate_pattern_response prompt
  else generate_with_llama be st prompt max_tokens

/-! ### Theorems -/

/-- C1: for every string prompt (including the empty string), the fallback
responder `generate_pattern_response` returns a non-empty string: every
keyword branch returns non-empty canned text, the arithmetic branch only
returns its result when it is non-empty, and otherwise the non-empty
default response is returned. -/
theorem fallback_response_nonempty (prompt : String) :
    generate_pattern_response prompt ≠ "" := by
  unfold generate_pattern_response
  repeat' split
  all_goals first
    | decide
    | (rename_i h; simpa using h)

/-- C1 witness: the theorem applied to the empty prompt. -/
theorem fallback_response_nonempty_witness :
    generate_pattern_response "" ≠ "" :=
  fallback_response_nonempty ""

/-- C3: a prompt whose lower-cased form contains "help" and "water" (with
"clean" or "purify" also present, so the water rule would match) gets the
emergency response, not the water-purification response, because the
emergency rule is tested first. -/
theorem help_water_priority (prompt : String)
    (hHelp : strContains (lowerString prompt) "help" = true)
    (hWater : strContains (lowerString prompt) "water" = true)
    (hClean : strContains (lowerString prompt) "clean" = true ∨
              strContains (lowerString prompt) "purify" = true) :
    generate_pattern_response prompt = emergencyResponse ∧
    generate_pattern_response prompt ≠ waterResponse := by
  have hEm : generate_pattern_response prompt = emergencyResponse := by
    unfold generate_pattern_response
    simp [hHelp]
  refine ⟨hEm, ?_⟩
  rw [hEm]
  decide

/-- C3 witness: a concrete prompt containing "help", "water" and "purify". -/
theorem help_water_priority_witness :
    generate_pattern_response "help me purify this water" = emergencyResponse ∧
    generate_pattern_response "help me purify this water" ≠ waterResponse :=
  help_water_priority "help me purify this water" (by decide) (by decide)
    (Or.inr (by decide))

/-- C4: the arithmetic handler computes simple sums and differences and
falls through to the default response when integer parsing fails. -/
theorem arithmetic_examples :
    generate_pattern_response "12+7" = "19" ∧
    generate_pattern_response "20-5" = "15" ∧
    generate_pattern_response "abc+def" = defaultResponse := by
  decide

/-- C10 counterexample: the prompt "-help" has no `+` in its stripped form
and its first `-` at index 0, yet `generate_pattern_response` returns the
emergency response (the "help" keyword matches first), not the default
catch-all response — so the claim as stated is false. -/
theorem leading_minus_prompt_cex :
    (removeSpaces "-help").findIdx? (fun c => c == '+') = none ∧
    (removeSpaces "-help").findIdx? (fun c => c == '-') = some 0 ∧
    handle_basic_math "-help" = "" ∧
    generate_pattern_response "-help" = emergencyResponse ∧
    generate_pattern_response "-help" ≠ defaultResponse := by
  decide

/-- C10 (amended): if the space-stripped prompt contains no `+` and its
first `-` is at index 0, `handle_basic_math` returns the empty string;
if additionally no earlier keyword rule matches, the responder returns
the default response; in particular "-5-3" yields the default response
and is never computed as "-8". -/
theorem leading_minus_math_empty (prompt : String)
    (hPlus : (removeSpaces prompt).findIdx? (fun c => c == '+') = none)
    (hMinus : (removeSpaces prompt).findIdx? (fun c => c == '-') = some 0) :
    handle_basic_math prompt = "" ∧
    (matchesKeywordRule prompt = false →
      generate_pattern_response prompt = defaultResponse) ∧
    generate_pattern_response "-5-3" = defaultResponse := by
  have hm : handle_basic_math prompt = "" := by
    simp only [handle_basic_math, hPlus, hMinus, lt_self_iff_false, if_false]
  refine ⟨hm, ?_, by decide⟩
  intro hNoRule
  simp only [matchesKeywordRule, Bool.or_eq_false_iff, Bool.and_eq_false_iff] at hNoRule
  unfold generate_pattern_response
  rw [hm]
  split_ifs <;> first
    | rfl
    | simp_all

/-- C10 witness: the amended theorem applied to "-5-3". -/
theorem leading_minus_math_empty_witness :
    handle_basic_math "-5-3" = "" ∧
    generate_pattern_response "-5-3" = defaultResponse :=
  ⟨(leading_minus_math_empty "-5-3" (by decide) (by decide)).1,
   (leading_minus_math_empty "-5-3" (by decide) (by decide)).2.2⟩

lemma lastIdxOf_eq_none_of_not_mem (c : Char) :
    ∀ l : List Char, c ∉ l → lastIdxOf c l = none := by
  intro l h
  induction l with
  | nil => rfl
  | cons x xs ih =>
    simp only [List.mem_cons, not_or] at h
    rw [lastIdxOf, ih h.2]
    simp [beq_iff_eq, Ne.symm h.1]

/-- C7: `is_supported_format` returns true iff the path's lower-cased
last-dot extension is one of `.gguf`, `.safetensors`, `.bin`, `.pt`,
`.pth`; matching is case-insensitive, and a path without a dot yields
the empty extension and is rejected. -/
theorem supported_format_iff_extension (p : String) :
    (is_supported_format p = true ↔ get_file_extension p ∈ supportedExtensions) ∧
    ('.' ∉ p.data → get_file_extension p = "" ∧ is_supported_format p = false) ∧
    (is_supported_format "model.GGUF" = true ∧ is_supported_format "model.gguf" = true ∧
     is_supported_format "model.xyz" = false) := by
  refine ⟨?_, ?_, by decide, by decide, by decide⟩
  · simp only [is_supported_format, supportedExtensions, Bool.or_eq_true, beq_iff_eq,
      List.mem_cons, List.not_mem_nil, or_false]
    tauto
  · intro h
    have hext : get_file_extension p = "" := by
      unfold get_file_extension
      rw [lastIdxOf_eq_none_of_not_mem '.' p.data h]
    refine ⟨hext, ?_⟩
    simp [is_supported_format, hext]

/-- C7 witness: the no-dot clause applied to the concrete path "model". -/
theorem supported_format_iff_extension_witness :
    get_file_extension "model" = "" ∧ is_supported_format "model" = false :=
  (supported_format_iff_extension "model").2.1 (by decide)

/-- C8 counterexample: with the built-in vocabulary, decoding `[0, 500]`
(valid id then out-of-range id) yields `"<PAD> "` with a trailing space,
not the space-joined valid strings `"<PAD>"` — an out-of-range id at the
end of the list does leave a trailing separator, so the claim as stated
is false. -/
theorem decode_trailing_space_cex :
    decode create_basic_vocabulary.m_vocabulary [0, 500] = "<PAD> " ∧
    joinSpace (validStrings create_basic_vocabulary.m_vocabulary [0, 500]) = "<PAD>" ∧
    decode create_basic_vocabulary.m_vocabulary [0, 500] ≠
      joinSpace (validStrings create_basic_vocabulary.m_vocabulary [0, 500]) := by
  decide

lemma validStrings_cons (vocab : List String) (t : Int) (rest : List Int) :
    validStrings vocab (t :: rest) =
      if 0 ≤ t ∧ t < (vocab.length : Int) then
        vocab.getD t.toNat "" :: validStrings vocab rest
      else validStrings vocab rest := by
  by_cases hv : 0 ≤ t ∧ t < (vocab.length : Int) <;>
    simp [validStrings, List.filter_cons, hv]

lemma validStrings_nil_invalid (vocab : List String) (tokens : List Int)
    (h : validStrings vocab tokens = []) :
    ∀ t ∈ tokens, ¬ (0 ≤ t ∧ t < (vocab.length : Int)) := by
  intro t ht hv
  simp only [validStrings] at h
  have hf := List.map_eq_nil_iff.mp h
  have := List.filter_eq_nil_iff.mp hf t ht
  simp [hv] at this

lemma mem_of_getLast?_eq {α : Type} {l : List α} {x : α}
    (h : l.getLast? = some x) : x ∈ l := by
  have hx : x ∈ l.getLast? := Option.mem_def.mpr h
  obtain ⟨hne, hEq⟩ := List.mem_getLast?_eq_getLast hx
  exact hEq ▸ List.getLast_mem hne

lemma trailingFlag_eq (vocab : List String) (tokens : List Int) (x : Int)
    (hx : tokens.getLast? = some x) :
    trailingFlag vocab tokens =
      (!(decide (0 ≤ x ∧ x < (vocab.length : Int))) &&
       !(validStrings vocab tokens).isEmpty) := by
  simp [trailingFlag, hx]

/-- C8 (amended): `decode` returns the vocabulary strings of the
in-range ids joined by single spaces; skipped ids contribute no text and
no doubled separator in the middle of the list, but when the last id is
out of range and an in-range id precedes it, one trailing space
remains. -/
theorem decode_join_characterization (vocab : List String) (tokens : List Int) :
    decode vocab tokens =
      joinSpace (validStrings vocab tokens) ++
        (if trailingFlag vocab tokens then " " else "") := by
  induction tokens with
  | nil => rfl
  | cons t rest ih =>
    cases rest with
    | nil =>
      by_cases hv : 0 ≤ t ∧ t < (vocab.length : Int) <;>
        simp [decode, validStrings, trailingFlag, joinSpace, hv, List.filter_cons]
    | cons u rest2 =>
      have hLast : (t :: u :: rest2).getLast? = (u :: rest2).getLast? :=
        List.getLast?_cons_cons
      obtain ⟨x, hx⟩ : ∃ x, (u :: rest2).getLast? = some x := by
        cases hl : (u :: rest2).getLast? with
        | none => simp [List.getLast?_eq_none_iff] at hl
        | some y => exact ⟨y, rfl⟩
      by_cases hv : 0 ≤ t ∧ t < (vocab.length : Int)
      · by_cases hvs : validStrings vocab (u :: rest2) = []
        · have hxinv := validStrings_nil_invalid vocab (u :: rest2) hvs x
            (mem_of_getLast?_eq hx)
          have htailflag : trailingFlag vocab (u :: rest2) = false := by
            rw [trailingFlag_eq vocab _ x hx, hvs]
            simp
          have hdec : decode vocab (u :: rest2) = "" := by
            rw [ih, hvs, htailflag]
            rfl
          have hflag : trailingFlag vocab (t :: u :: rest2) = true := by
            rw [trailingFlag_eq vocab _ x (hLast.trans hx), validStrings_cons,
              if_pos hv, hvs]
            simp [hxinv]
          rw [hflag, validStrings_cons, if_pos hv, hvs]
          simp only [decode, if_pos hv, hdec]
          rw [String.append_empty]
          rfl
        · obtain ⟨a, l, hal⟩ : ∃ a l, validStrings vocab (u :: rest2) = a :: l := by
            cases hcase : validStrings vocab (u :: rest2) with
            | nil => exact absurd hcase hvs
            | cons a l => exact ⟨a, l, rfl⟩
          have hflag : trailingFlag vocab (t :: u :: rest2) =
              trailingFlag vocab (u :: rest2) := by
            rw [trailingFlag_eq vocab _ x (hLast.trans hx), trailingFlag_eq vocab _ x hx,
              validStrings_cons, if_pos hv, hal]
            rfl
          rw [validStrings_cons, if_pos hv, hal, hflag]
          simp only [decode, if_pos hv]
          rw [ih, hal]
          simp [joinSpace, String.append_assoc]
      · have hflag : trailingFlag vocab (t :: u :: rest2) =
            trailingFlag vocab (u :: rest2) := by
          rw [trailingFlag_eq vocab _ x (hLast.trans hx), trailingFlag_eq vocab _ x hx,
            validStrings_cons, if_neg hv]
        rw [validStrings_cons, if_neg hv, hflag]
        simp only [decode, if_neg hv]
        rw [ih]
        rw [String.empty_append]

lemma mapInsert_mem {m : List (String × Nat)} {k : String} {v : Nat} {p : String × Nat}
    (hp : p ∈ mapInsert m k v) : p = (k, v) ∨ p ∈ m := by
  simp only [mapInsert, List.mem_cons] at hp
  rcases hp with h | h
  · exact Or.inl h
  · exact Or.inr (List.mem_of_mem_filter h)

lemma push_inv {v : List String} {m : List (String × Nat)} (t : String)
    (h : ∀ p ∈ m, v[p.2]? = some p.1) :
    ∀ p ∈ mapInsert m t v.length, (v ++ [t])[p.2]? = some p.1 := by
  intro p hp
  rcases mapInsert_mem hp with rfl | hpm
  · simpa using List.getElem?_concat_length v t
  · have hv := h p hpm
    have hlt : p.2 < v.length := by
      by_contra hge
      rw [List.getElem?_eq_none (by omega)] at hv
      exact Option.noConfusion hv
    rw [List.getElem?_append_left hlt]
    exact hv

lemma buildGo_fst : ∀ (ts v : List String) (m), (buildGo ts v m).1 = v ++ ts := by
  intro ts
  induction ts with
  | nil => intro v m; simp [buildGo]
  | cons t rest ih =>
    intro v m
    rw [buildGo, ih]
    simp

lemma buildGo_snd_inv : ∀ (ts v : List String) (m),
    (∀ p ∈ m, v[p.2]? = some p.1) →
    ∀ p ∈ (buildGo ts v m).2, (buildGo ts v m).1[p.2]? = some p.1 := by
  intro ts
  induction ts with
  | nil => intro v m h; simpa [buildGo] using h
  | cons t rest ih =>
    intro v m h
    rw [buildGo]
    exact ih _ _ (push_inv t h)

lemma loadGo_fst : ∀ (lines v : List String) (m), v.length ≤ 50000 →
    (loadGo lines v m).1 = v ++ (lines.filter (fun l => l ≠ "")).take (50000 - v.length) := by
  intro lines
  induction lines with
  | nil => intro v m _; simp [loadGo]
  | cons line rest ih =>
    intro v m _
    rw [loadGo]
    by_cases hlt : v.length < 50000
    · rw [if_pos hlt]
      by_cases hne : line ≠ ""
      · rw [if_pos hne, ih _ _ (by simp; omega)]
        have harith : 50000 - v.length = (50000 - (v.length + 1)) + 1 := by omega
        simp [List.filter_cons, hne, harith, List.take_succ_cons, List.append_assoc]
      · rw [if_neg hne]
        push_neg at hne
        rw [ih v m (by omega)]
        simp [List.filter_cons, hne]
    · rw [if_neg hlt]
      have h5 : 50000 - v.length = 0 := by omega
      simp [h5]

lemma loadGo_snd_inv : ∀ (lines v : List String) (m),
    (∀ p ∈ m, v[p.2]? = some p.1) →
    ∀ p ∈ (loadGo lines v m).2, (loadGo lines v m).1[p.2]? = some p.1 := by
  intro lines
  induction lines with
  | nil => intro v m h; simpa [loadGo] using h
  | cons line rest ih =>
    intro v m h
    rw [loadGo]
    by_cases hlt : v.length < 50000
    · rw [if_pos hlt]
      by_cases hne : line ≠ ""
      · rw [if_pos hne]
        exact ih _ _ (push_inv line h)
      · rw [if_neg hne]
        exact ih v m h
    · rw [if_neg hlt]
      exact h

lemma basic_vocab_eq : create_basic_vocabulary.m_vocabulary = basicTokens := by
  show (buildGo basicTokens [] []).1 = basicTokens
  rw [buildGo_fst]
  rfl

lemma basic_inv : TokInv create_basic_vocabulary := by
  refine ⟨?_, ?_, ?_⟩
  · rw [basic_vocab_eq]
    decide
  · rw [basic_vocab_eq]
    decide
  · have := buildGo_snd_inv basicTokens [] [] (by simp)
    exact this

lemma load_some_inv (lines : List String) : TokInv (load_vocabulary (some lines)).2 := by
  refine ⟨?_, ?_, ?_⟩
  · show ((loadGo lines [] []).1).length ≤ 50000
    rw [loadGo_fst lines [] [] (by simp)]
    simp [List.length_take]
  · show "" ∉ (loadGo lines [] []).1
    rw [loadGo_fst lines [] [] (by simp)]
    intro hmem
    simp only [List.nil_append] at hmem
    have h1 := List.mem_of_mem_take hmem
    have h2 := (List.mem_filter.mp h1).2
    simp at h2
  · exact loadGo_snd_inv lines [] [] (by simp)

/-- C9 counterexample: `encode` on a tokenizer whose vocabulary is empty
does add entries — it rebuilds the 136-entry built-in vocabulary — so
the "encode/decode never add entries" part of the claim is false. -/
theorem encode_rebuilds_vocab_cex :
    ({ m_vocabulary := [], m_token_to_id := [] } : TokenizerState).m_vocabulary.length = 0 ∧
    (encode { m_vocabulary := [], m_token_to_id := [] } "hello").2.m_vocabulary.length = 136 := by
  refine ⟨rfl, ?_⟩
  show (if ([] : List String).isEmpty then create_basic_vocabulary
        else { m_vocabulary := [], m_token_to_id := [] }).m_vocabulary.length = 136
  show create_basic_vocabulary.m_vocabulary.length = 136
  rw [basic_vocab_eq]
  decide

/-- C9 (amended): every operation preserves the invariant that the
vocabulary holds at most 50,000 entries, contains no empty string, and
that the reverse map sends each entry to the index holding that string:
`load_vocabulary` keeps exactly the first 50,000 non-empty lines in
insertion order, the built-in vocabulary has 136 entries, `encode` leaves
a non-empty vocabulary unchanged (on an empty one it rebuilds the
built-in vocabulary, which also satisfies the invariant), and `decode`
reads only the vocabulary. -/
theorem tokenizer_vocab_invariant :
    (∀ lines, (load_vocabulary (some lines)).2.m_vocabulary =
      (lines.filter (fun l => l ≠ "")).take 50000) ∧
    (∀ file, TokInv (load_vocabulary file).2) ∧
    TokInv create_basic_vocabulary ∧
    create_basic_vocabulary.m_vocabulary.length = 136 ∧
    (∀ st text, st.m_vocabulary ≠ [] → (encode st text).2 = st) ∧
    (∀ st text, TokInv st → TokInv (encode st text).2) := by
  refine ⟨?_, ?_, basic_inv, ?_, ?_, ?_⟩
  · intro lines
    show (loadGo lines [] []).1 = _
    rw [loadGo_fst lines [] [] (by simp)]
    rfl
  · intro file
    cases file with
    | none => exact basic_inv
    | some lines => exact load_some_inv lines
  · rw [basic_vocab_eq]
    decide
  · intro st text h
    simp [encode, List.isEmpty_iff, h]
  · intro st text h
    by_cases he : st.m_vocabulary.isEmpty
    · simp [encode, he]
      exact basic_inv
    · simp [encode, he]
      exact h

/-- C9 witness: `encode` on a concrete non-empty tokenizer state leaves
the state unchanged. -/
theorem tokenizer_vocab_invariant_witness :
    (encode { m_vocabulary := ["hello"], m_token_to_id := [("hello", 0)] } "hi").2 =
      { m_vocabulary := ["hello"], m_token_to_id := [("hello", 0)] } :=
  tokenizer_vocab_invariant.2.2.2.2.1 _ "hi" (by decide)

lemma cppMin_eq {α : Type} [LinearOrder α] (a b : α) : cppMin a b = min a b := by
  unfold cppMin
  split_ifs with h
  · exact (min_eq_right h.le).symm
  · exact (min_eq_left (not_lt.mp h)).symm

lemma cppMax_eq {α : Type} [LinearOrder α] (a b : α) : cppMax a b = max a b := by
  unfold cppMax
  split_ifs with h
  · exact (max_eq_right h.le).symm
  · exact (max_eq_left (not_lt.mp h)).symm

/-- C2: `load_model` returns true for every loader outcome — success,
loader failure, or a thrown exception — and in the failure and exception
cases it sets `use_pattern_fallback` and marks the engine loaded;
consequently `init_model` returns 0 for any non-null path that does not
throw during setup. -/
theorem load_model_always_succeeds (st : TGState) (o : LoadOutcome) :
    (load_model st o).1 = true ∧
    ((o = LoadOutcome.failure ∨ o = LoadOutcome.thrown) →
      (load_model st o).2.use_pattern_fallback = true ∧
      (load_model st o).2.m_loaded = true) ∧
    (init_model o).1 = 0 := by
  cases o <;> simp [load_model, init_model]

/-- C2 witness: a failed load on a fresh engine still reports success and
falls back to pattern responses. -/
theorem load_model_always_succeeds_witness :
    (load_model initialTG LoadOutcome.failure).2.use_pattern_fallback = true ∧
    (load_model initialTG LoadOutcome.failure).2.m_loaded = true :=
  (load_model_always_succeeds initialTG LoadOutcome.failure).2.1 (Or.inl rfl)

/-- C5: `set_temperature` stores `max(0.1, min(2.0, x))`, `set_top_k`
stores `max(1, min(100, k))`, `set_top_p` stores `max(0.1, min(1.0, p))`;
each stored value lies inside the bounds, and no input is rejected. -/
theorem sampling_config_clamped (st : TGState) (x : ℚ) (k : Int) (p : ℚ) :
    ((set_temperature st x).m_temperature = max 0.1 (min 2.0 x) ∧
     0.1 ≤ (set_temperature st x).m_temperature ∧
     (set_temperature st x).m_temperature ≤ 2.0) ∧
    ((set_top_k st k).m_top_k = max 1 (min 100 k) ∧
     1 ≤ (set_top_k st k).m_top_k ∧ (set_top_k st k).m_top_k ≤ 100) ∧
    ((set_top_p st p).m_top_p = max 0.1 (min 1.0 p) ∧
     0.1 ≤ (set_top_p st p).m_top_p ∧ (set_top_p st p).m_top_p ≤ 1.0) := by
  simp only [set_temperature, set_top_k, set_top_p, cppMin_eq, cppMax_eq]
  refine ⟨⟨trivial, le_max_left _ _, max_le (by norm_num) (min_le_left _ _)⟩,
          ⟨trivial, le_max_left _ _, max_le (by norm_num) (min_le_left _ _)⟩,
          ⟨trivial, le_max_left _ _, max_le (by norm_num) (min_le_left _ _)⟩⟩

/-- C6: the result of `generate` does not depend on the stored sampling
configuration: two engine states that differ only in `m_temperature`,
`m_top_k` and `m_top_p` (same model state, same backend behaviour)
produce the same string — token selection is plain arg-max over the
logits and never reads those fields. -/
theorem generate_ignores_sampling_config (be : Backend) (st : TGState)
    (prompt : String) (max_tokens : Int) (t1 t2 : ℚ) (k1 k2 : Int) (p1 p2 : ℚ) :
    generate be { st with m_temperature := t1, m_top_k := k1, m_top_p := p1 }
        prompt max_tokens =
      generate be { st with m_temperature := t2, m_top_k := k2, m_top_p := p2 }
        prompt max_tokens := by
  cases st
  rfl

end NaseerAI
